import Mathlib

/-!
Shallow embedding of `EthernetHelper.h` (Arduino Ethernet bring-up helper).

The helper owns three pieces of static state (`usingDHCP`, `lastLinkStatus`,
`lastLinkCheck`) and exposes `begin`, `maintain`, `isLinkUp`.  The underlying
`Ethernet` driver is modelled as an oracle: the outcomes of its primitive
calls (`Ethernet.begin(mac, timeout)`, `hardwareStatus()`, `linkStatus()`,
`maintain()`, `millis()`) are inputs to the embedded functions, and the
driver-mutating call `Ethernet.begin(mac, ip, dns, gateway, subnet)` is
recorded as an explicit effect, along with the `Serial` log output.

Timestamps are Arduino `unsigned long` (32-bit) millisecond readings:
naturals below `2^32`, with the wraparound subtraction
`millis() - lastLinkCheck` made explicit.
-/

namespace EthernetHelper

/-- `IPAddress`: four octets, as in the Arduino core. -/
structure IPAddress where
  o0 : Nat
  o1 : Nat
  o2 : Nat
  o3 : Nat
deriving DecidableEq, Repr

/-- `EthernetLinkStatus` from the Ethernet library. -/
inductive EthernetLinkStatus where
  | Unknown
  | LinkON
  | LinkOFF
deriving DecidableEq, Repr

/-- `EthernetHardwareStatus` from the Ethernet library. -/
inductive EthernetHardwareStatus where
  | EthernetNoHardware
  | EthernetW5100
  | EthernetW5200
  | EthernetW5500
deriving DecidableEq, Repr

/-- The three static data members of `EthernetHelper`. -/
structure HelperState where
  usingDHCP : Bool
  lastLinkStatus : EthernetLinkStatus
  lastLinkCheck : Nat
deriving DecidableEq, Repr

/-- The static member initializers at the bottom of `EthernetHelper.h`:
`usingDHCP = false`, `lastLinkStatus = Unknown`, `lastLinkCheck = 0`. -/
def initState : HelperState :=
  { usingDHCP := false
    lastLinkStatus := EthernetLinkStatus.Unknown
    lastLinkCheck := 0 }

/-- One `Serial` log entry emitted by the helper (kinds only; the formatted
octet text is irrelevant to the claims). -/
inductive LogEvent where
  | dhcpRenewFailed
  | dhcpRenewed
  | dhcpRebindFailed
  | dhcpRebound
  | linkChanged (newStatus : EthernetLinkStatus)
deriving DecidableEq, Repr

/-- The static configuration handed to
`Ethernet.begin(mac, fallbackIP, dns, gateway, subnet)` on the fallback path. -/
structure StaticConfig where
  address : IPAddress
  dns : IPAddress
  gateway : IPAddress
  subnet : IPAddress
deriving DecidableEq, Repr

/-- Driver-oracle inputs for one call to `EthernetHelper::begin`:
the outcome of `Ethernet.begin(mac, dhcpTimeout)` (nonzero = success),
what `Ethernet.hardwareStatus()` and `Ethernet.linkStatus()` would report,
and the `millis()` reading taken at the `lastLinkCheck = millis();` line. -/
structure BeginEnv where
  dhcpSuccess : Bool
  hardwareStatus : EthernetHardwareStatus
  linkStatus : EthernetLinkStatus
  millisAtEnd : Nat
deriving DecidableEq, Repr

/-- Result of one call to `EthernetHelper::begin`: the boolean return value,
the helper state after the call, and the static configuration applied to the
driver (`none` when the static `Ethernet.begin` overload was never called). -/
structure BeginResult where
  ret : Bool
  state : HelperState
  staticConfig : Option StaticConfig
deriving DecidableEq, Repr

/-- The all-zero sentinel `IPAddress(0, 0, 0, 0)`. -/
def zeroIP : IPAddress := ⟨0, 0, 0, 0⟩

/-- `EthernetHelper::begin(mac, fallbackIP, gateway, subnet, dns, dhcpTimeout)`.

Mirrors the source: try DHCP; on failure, return `false` if
`Ethernet.hardwareStatus() == EthernetNoHardware`; otherwise derive the
sentinel gateway as `fallbackIP[0].fallbackIP[1].fallbackIP[2].1`, derive the
sentinel DNS as the gateway, apply the static configuration, and set
`usingDHCP = false`.  On DHCP success set `usingDHCP = true`.  Both
successful paths end with `lastLinkCheck = millis(); return true;`. -/
def begin (pre : HelperState) (env : BeginEnv)
    (fallbackIP gateway subnet dns : IPAddress) : BeginResult :=
  if env.dhcpSuccess then
    { ret := true
      state := { pre with usingDHCP := true, lastLinkCheck := env.millisAtEnd }
      staticConfig := none }
  else if env.hardwareStatus = EthernetHardwareStatus.EthernetNoHardware then
    { ret := false
      state := pre
      staticConfig := none }
  else
    let gateway' := if gateway = zeroIP
      then (⟨fallbackIP.o0, fallbackIP.o1, fallbackIP.o2, 1⟩ : IPAddress)
      else gateway
    let dns' := if dns = zeroIP then gateway' else dns
    { ret := true
      state := { pre with usingDHCP := false, lastLinkCheck := env.millisAtEnd }
      staticConfig := some ⟨fallbackIP, dns', gateway', subnet⟩ }

/-- `2^32`, the modulus of Arduino `unsigned long` arithmetic. -/
def U32 : Nat := 4294967296

/-- The C expression `now - last` on `unsigned long` operands below `2^32`:
wraparound subtraction modulo `2^32`. -/
def elapsedSince (now last : Nat) : Nat :=
  (now + U32 - last % U32) % U32

/-- Driver-oracle inputs for one call to `EthernetHelper::maintain`:
the `byte` result `Ethernet.maintain()` would return, what
`Ethernet.linkStatus()` would report, the `millis()` reading used in the
interval comparison, and the (possibly slightly later) `millis()` reading
stored by `lastLinkCheck = millis();`. -/
structure MaintainEnv where
  maintainResult : Nat
  linkStatus : EthernetLinkStatus
  nowCheck : Nat
  nowStamp : Nat
deriving DecidableEq, Repr

/-- Effects of one call to `EthernetHelper::maintain` (the method returns
`void`): the helper state after the call, how many times `Ethernet.maintain()`
and `Ethernet.linkStatus()` were invoked, and the log entries emitted. -/
structure MaintainResult where
  state : HelperState
  maintainCalls : Nat
  linkQueries : Nat
  log : List LogEvent
deriving DecidableEq, Repr

/-- The `switch (result)` log dispatch in the DHCP branch of `maintain`. -/
def dhcpLogOf (result : Nat) : List LogEvent :=
  match result with
  | 1 => [LogEvent.dhcpRenewFailed]
  | 2 => [LogEvent.dhcpRenewed]
  | 3 => [LogEvent.dhcpRebindFailed]
  | 4 => [LogEvent.dhcpRebound]
  | _ => []

/-- `EthernetHelper::maintain(linkCheckInterval)`.

Mirrors the source: when `usingDHCP`, call `Ethernet.maintain()` once and log
its result; then, when `millis() - lastLinkCheck >= linkCheckInterval`, query
`Ethernet.linkStatus()` once, log a transition and update `lastLinkStatus`
when it differs from the stored observation, and always set
`lastLinkCheck = millis()` when the check fires. -/
def maintain (pre : HelperState) (env : MaintainEnv)
    (linkCheckInterval : Nat) : MaintainResult :=
  let mCalls := if pre.usingDHCP then 1 else 0
  let dLog := if pre.usingDHCP then dhcpLogOf env.maintainResult else []
  if elapsedSince env.nowCheck pre.lastLinkCheck ≥ linkCheckInterval then
    if env.linkStatus ≠ pre.lastLinkStatus then
      { state := { pre with
          lastLinkStatus := env.linkStatus
          lastLinkCheck := env.nowStamp }
        maintainCalls := mCalls
        linkQueries := 1
        log := dLog ++ [LogEvent.linkChanged env.linkStatus] }
    else
      { state := { pre with lastLinkCheck := env.nowStamp }
        maintainCalls := mCalls
        linkQueries := 1
        log := dLog }
  else
    { state := pre
      maintainCalls := mCalls
      linkQueries := 0
      log := dLog }

/-- `EthernetHelper::isLinkUp()`: `return Ethernet.linkStatus() == LinkON;`.
The helper state is taken and returned to make explicit that the method
neither reads nor writes it. -/
def isLinkUp (pre : HelperState) (liveLinkStatus : EthernetLinkStatus) :
    Bool × HelperState :=
  (liveLinkStatus = EthernetLinkStatus.LinkON, pre)

/-- Fold `maintain` over a sequence of per-call driver oracles, returning the
final state and the total number of `Ethernet.maintain()` invocations. -/
def maintainRun (s : HelperState) (envs : List MaintainEnv)
    (linkCheckInterval : Nat) : HelperState × Nat :=
  match envs with
  | [] => (s, 0)
  | e :: rest =>
    let r := maintain s e linkCheckInterval
    let tail := maintainRun r.state rest linkCheckInterval
    (tail.1, r.maintainCalls + tail.2)

/-- Number of link-transition log entries in a log. -/
def countLinkChanged (log : List LogEvent) : Nat :=
  log.countP fun e =>
    match e with
    | LogEvent.linkChanged _ => true
    | _ => false

end EthernetHelper

namespace EthernetHelper

theorem maintain_state_usingDHCP (pre : HelperState) (env : MaintainEnv)
    (i : Nat) : (maintain pre env i).state.usingDHCP = pre.usingDHCP := by
  unfold maintain
  repeat' split
  all_goals simp_all

theorem maintain_maintainCalls_eq (pre : HelperState) (env : MaintainEnv)
    (i : Nat) :
    (maintain pre env i).maintainCalls = if pre.usingDHCP = true then 1 else 0 := by
  unfold maintain
  repeat' split
  all_goals simp_all

theorem maintainRun_calls_eq (envs : List MaintainEnv) (s : HelperState)
    (i : Nat) :
    (maintainRun s envs i).2 = if s.usingDHCP = true then envs.length else 0 := by
  induction envs generalizing s with
  | nil => simp [maintainRun]
  | cons e rest ih =>
    simp only [maintainRun]
    rw [ih, maintain_state_usingDHCP, maintain_maintainCalls_eq]
    cases h : s.usingDHCP <;> simp [List.length_cons, Nat.add_comm]

end EthernetHelper

namespace EthernetHelper

/-- C1: `begin` returns `false` if and only if dynamic acquisition failed and
the hardware-presence check (performed only after that failure) reports
`EthernetNoHardware`; in that case no static configuration is applied to the
driver, for every choice of the other parameters; acquisition failure with
hardware present returns `true` with the static fallback applied. -/
theorem begin_fatal_iff_no_hardware (pre : HelperState) (env : BeginEnv)
    (fallbackIP gateway subnet dns : IPAddress) :
    ((begin pre env fallbackIP gateway subnet dns).ret = false ↔
      (env.dhcpSuccess = false ∧
        env.hardwareStatus = EthernetHardwareStatus.EthernetNoHardware)) ∧
    ((begin pre env fallbackIP gateway subnet dns).ret = false →
      (begin pre env fallbackIP gateway subnet dns).staticConfig = none) ∧
    (env.dhcpSuccess = false →
      env.hardwareStatus ≠ EthernetHardwareStatus.EthernetNoHardware →
      (begin pre env fallbackIP gateway subnet dns).ret = true ∧
      ((begin pre env fallbackIP gateway subnet dns).staticConfig).isSome
        = true) := by
  rcases env with ⟨d, hw, ls, m⟩
  cases d <;> cases hw <;> simp [begin]

/-- Witness for C1: hardware absent after a DHCP failure yields `false`. -/
theorem begin_fatal_iff_no_hardware_witness :
    (begin initState
      ⟨false, EthernetHardwareStatus.EthernetNoHardware,
        EthernetLinkStatus.Unknown, 7⟩
      ⟨192, 168, 1, 100⟩ zeroIP ⟨255, 255, 255, 0⟩ zeroIP).ret = false :=
  (begin_fatal_iff_no_hardware initState
      ⟨false, EthernetHardwareStatus.EthernetNoHardware,
        EthernetLinkStatus.Unknown, 7⟩
      ⟨192, 168, 1, 100⟩ zeroIP ⟨255, 255, 255, 0⟩ zeroIP).1.mpr ⟨rfl, rfl⟩

/-- C3: on the static-fallback path (DHCP failed, hardware present), a
sentinel gateway argument is derived from the fallback address `A.B.C.D` as
`A.B.C.1`, for all octets including `D = 1`; a non-sentinel gateway argument
is applied to the driver verbatim. -/
theorem begin_gateway_derivation (pre : HelperState) (env : BeginEnv)
    (fallbackIP gateway subnet dns : IPAddress)
    (hd : env.dhcpSuccess = false)
    (hh : env.hardwareStatus ≠ EthernetHardwareStatus.EthernetNoHardware) :
    ((begin pre env fallbackIP zeroIP subnet dns).staticConfig.map
        StaticConfig.gateway =
      some ⟨fallbackIP.o0, fallbackIP.o1, fallbackIP.o2, 1⟩) ∧
    (gateway ≠ zeroIP →
      (begin pre env fallbackIP gateway subnet dns).staticConfig.map
        StaticConfig.gateway = some gateway) := by
  constructor
  · simp [begin, hd, hh]
  · intro hg
    simp [begin, hd, hh, hg]

/-- Witness for C3: deriving from fallback `192.168.1.100` yields gateway
`192.168.1.1`. -/
theorem begin_gateway_derivation_witness :
    (begin initState
      ⟨false, EthernetHardwareStatus.EthernetW5100,
        EthernetLinkStatus.LinkOFF, 11⟩
      ⟨192, 168, 1, 100⟩ zeroIP ⟨255, 255, 255, 0⟩ zeroIP).staticConfig.map
        StaticConfig.gateway = some ⟨192, 168, 1, 1⟩ :=
  (begin_gateway_derivation initState
      ⟨false, EthernetHardwareStatus.EthernetW5100,
        EthernetLinkStatus.LinkOFF, 11⟩
      ⟨192, 168, 1, 100⟩ zeroIP ⟨255, 255, 255, 0⟩ zeroIP rfl
      (by decide)).1

/-- C4: on the static-fallback path, a sentinel DNS argument makes the DNS
applied to the driver equal the gateway in effect after any gateway
auto-derivation, for every gateway argument (supplied or derived). -/
theorem begin_dns_derivation (pre : HelperState) (env : BeginEnv)
    (fallbackIP gateway subnet : IPAddress)
    (hd : env.dhcpSuccess = false)
    (hh : env.hardwareStatus ≠ EthernetHardwareStatus.EthernetNoHardware) :
    ((begin pre env fallbackIP gateway subnet zeroIP).staticConfig).isSome
      = true ∧
    (begin pre env fallbackIP gateway subnet zeroIP).staticConfig.map
        StaticConfig.dns =
      (begin pre env fallbackIP gateway subnet zeroIP).staticConfig.map
        StaticConfig.gateway := by
  simp [begin, hd, hh]

/-- Witness for C4: with fallback `10.0.0.50`, derived gateway `10.0.0.1`,
the DNS applied equals the gateway applied. -/
theorem begin_dns_derivation_witness :
    (begin initState
      ⟨false, EthernetHardwareStatus.EthernetW5500,
        EthernetLinkStatus.LinkOFF, 2⟩
      ⟨10, 0, 0, 50⟩ zeroIP ⟨255, 255, 255, 0⟩ zeroIP).staticConfig.map
        StaticConfig.dns =
      (begin initState
        ⟨false, EthernetHardwareStatus.EthernetW5500,
          EthernetLinkStatus.LinkOFF, 2⟩
        ⟨10, 0, 0, 50⟩ zeroIP ⟨255, 255, 255, 0⟩ zeroIP).staticConfig.map
        StaticConfig.gateway :=
  (begin_dns_derivation initState
      ⟨false, EthernetHardwareStatus.EthernetW5500,
        EthernetLinkStatus.LinkOFF, 2⟩
      ⟨10, 0, 0, 50⟩ zeroIP ⟨255, 255, 255, 0⟩ rfl (by decide)).2

/-- C9: when `begin` returns `false` (the fatal no-hardware path), the helper
state is unchanged: `usingDHCP`, `lastLinkStatus` and `lastLinkCheck` all keep
their pre-call values, since the fatal `return false` precedes the mode
assignment and the `lastLinkCheck = millis()` anchor. -/
theorem begin_fatal_preserves_state (pre : HelperState) (env : BeginEnv)
    (fallbackIP gateway subnet dns : IPAddress)
    (h : (begin pre env fallbackIP gateway subnet dns).ret = false) :
    (begin pre env fallbackIP gateway subnet dns).state = pre := by
  rcases env with ⟨d, hw, ls, m⟩
  cases d <;> cases hw <;> simp_all [begin]

/-- Witness for C9: a fatal call leaves the initial state intact. -/
theorem begin_fatal_preserves_state_witness :
    (begin initState
      ⟨false, EthernetHardwareStatus.EthernetNoHardware,
        EthernetLinkStatus.LinkOFF, 42⟩
      ⟨10, 0, 0, 50⟩ zeroIP ⟨255, 255, 255, 0⟩ zeroIP).state = initState :=
  begin_fatal_preserves_state initState
    ⟨false, EthernetHardwareStatus.EthernetNoHardware,
      EthernetLinkStatus.LinkOFF, 42⟩
    ⟨10, 0, 0, 50⟩ zeroIP ⟨255, 255, 255, 0⟩ zeroIP rfl

end EthernetHelper

namespace EthernetHelper

theorem maintain_linkQueries_eq (pre : HelperState) (env : MaintainEnv)
    (i : Nat) :
    (maintain pre env i).linkQueries =
      if i ≤ elapsedSince env.nowCheck pre.lastLinkCheck then 1 else 0 := by
  unfold maintain
  repeat' split
  all_goals simp_all

theorem maintain_not_due_state (pre : HelperState) (env : MaintainEnv)
    (i : Nat) (h : elapsedSince env.nowCheck pre.lastLinkCheck < i) :
    (maintain pre env i).state = pre := by
  unfold maintain
  simp [Nat.not_le.mpr h]

theorem maintain_due_lastLinkCheck (pre : HelperState) (env : MaintainEnv)
    (i : Nat) (h : i ≤ elapsedSince env.nowCheck pre.lastLinkCheck) :
    (maintain pre env i).state.lastLinkCheck = env.nowStamp := by
  unfold maintain
  simp only [h, if_pos, ge_iff_le]
  split <;> simp

/-- C2: after a `begin` call that returned `true`, over any sequence of
`maintain` calls the total number of `Ethernet.maintain()` invocations is `0`
when the resulting addressing mode is static (`usingDHCP = false`) and equals
the number of calls (exactly one per call) when it is dynamic
(`usingDHCP = true`). -/
theorem mode_gating (pre : HelperState) (env : BeginEnv)
    (fallbackIP gateway subnet dns : IPAddress) (envs : List MaintainEnv)
    (interval : Nat)
    (h : (begin pre env fallbackIP gateway subnet dns).ret = true) :
    (((begin pre env fallbackIP gateway subnet dns).state).usingDHCP = false →
      (maintainRun (begin pre env fallbackIP gateway subnet dns).state envs
        interval).2 = 0) ∧
    (((begin pre env fallbackIP gateway subnet dns).state).usingDHCP = true →
      (maintainRun (begin pre env fallbackIP gateway subnet dns).state envs
        interval).2 = envs.length) := by
  constructor <;> intro hm <;> rw [maintainRun_calls_eq] <;> simp [hm]

/-- Witness for C2: after a successful dynamic acquisition, two `maintain`
calls invoke `Ethernet.maintain()` twice (once each). -/
theorem mode_gating_witness :
    (maintainRun
      (begin initState
        ⟨true, EthernetHardwareStatus.EthernetW5500,
          EthernetLinkStatus.LinkON, 3⟩
        ⟨10, 0, 0, 77⟩ zeroIP ⟨255, 255, 255, 0⟩ zeroIP).state
      [⟨0, EthernetLinkStatus.Unknown, 4, 4⟩,
       ⟨0, EthernetLinkStatus.Unknown, 5, 5⟩] 10000).2 = 2 :=
  (mode_gating initState
      ⟨true, EthernetHardwareStatus.EthernetW5500,
        EthernetLinkStatus.LinkON, 3⟩
      ⟨10, 0, 0, 77⟩ zeroIP ⟨255, 255, 255, 0⟩ zeroIP
      [⟨0, EthernetLinkStatus.Unknown, 4, 4⟩,
       ⟨0, EthernetLinkStatus.Unknown, 5, 5⟩] 10000 rfl).2 rfl

/-- C5: a `maintain` call whose elapsed time since `lastLinkCheck` is below
the interval performs zero link-state queries and leaves the anchor
timestamp unchanged; a call at or past the interval performs exactly one
query and resets the anchor to the call-time `millis()` reading, so a
subsequent under-interval call performs no further query. -/
theorem interval_gating (pre : HelperState) (e1 e2 : MaintainEnv)
    (interval : Nat) :
    (elapsedSince e1.nowCheck pre.lastLinkCheck < interval →
      (maintain pre e1 interval).linkQueries = 0 ∧
      (maintain pre e1 interval).state.lastLinkCheck = pre.lastLinkCheck) ∧
    (interval ≤ elapsedSince e1.nowCheck pre.lastLinkCheck →
      (maintain pre e1 interval).linkQueries = 1 ∧
      (maintain pre e1 interval).state.lastLinkCheck = e1.nowStamp ∧
      (elapsedSince e2.nowCheck e1.nowStamp < interval →
        (maintain (maintain pre e1 interval).state e2 interval).linkQueries
          = 0)) := by
  constructor
  · intro hlt
    rw [maintain_linkQueries_eq, maintain_not_due_state pre e1 interval hlt]
    simp [Nat.not_le.mpr hlt]
  · intro hge
    refine ⟨?_, maintain_due_lastLinkCheck pre e1 interval hge, ?_⟩
    · rw [maintain_linkQueries_eq]
      simp [hge]
    · intro hlt2
      rw [maintain_linkQueries_eq,
        maintain_due_lastLinkCheck pre e1 interval hge]
      simp [Nat.not_le.mpr hlt2]

/-- Witness for C5: from the initial anchor `0`, a call at `millis() = 15`
with interval `10` fires exactly one query; the follow-up call at
`millis() = 20` (elapsed `5 < 10` from the new anchor `15`) performs none. -/
theorem interval_gating_witness :
    (maintain initState ⟨0, EthernetLinkStatus.LinkON, 15, 15⟩ 10).linkQueries
      = 1 ∧
    (maintain (maintain initState ⟨0, EthernetLinkStatus.LinkON, 15, 15⟩
        10).state
      ⟨0, EthernetLinkStatus.LinkON, 20, 20⟩ 10).linkQueries = 0 :=
  ⟨((interval_gating initState ⟨0, EthernetLinkStatus.LinkON, 15, 15⟩
      ⟨0, EthernetLinkStatus.LinkON, 20, 20⟩ 10).2 (by decide)).1,
   ((interval_gating initState ⟨0, EthernetLinkStatus.LinkON, 15, 15⟩
      ⟨0, EthernetLinkStatus.LinkON, 20, 20⟩ 10).2 (by decide)).2.2
     (by decide)⟩

end EthernetHelper

namespace EthernetHelper

theorem countLinkChanged_dhcpLogOf (r : Nat) :
    countLinkChanged (dhcpLogOf r) = 0 := by
  unfold dhcpLogOf
  split <;> rfl

theorem countLinkChanged_append (a b : List LogEvent) :
    countLinkChanged (a ++ b) =
      countLinkChanged a + countLinkChanged b := by
  simp [countLinkChanged, List.countP_append]

theorem countLinkChanged_nil : countLinkChanged [] = 0 := rfl

theorem countLinkChanged_singleton (s : EthernetLinkStatus) :
    countLinkChanged [LogEvent.linkChanged s] = 1 := rfl

theorem countLinkChanged_dLog (b : Bool) (r : Nat) :
    countLinkChanged (if b = true then dhcpLogOf r else []) = 0 := by
  cases b
  · rfl
  · exact countLinkChanged_dhcpLogOf r

/-- C6: when a link check fires inside `maintain`, an observed state that
differs from the stored `lastLinkStatus` produces exactly one transition log
entry and updates the stored observation to the new state; an observed state
equal to the stored one produces no transition entry and leaves the stored
observation unchanged. -/
theorem change_triggered_logging (pre : HelperState) (env : MaintainEnv)
    (interval : Nat)
    (hfire : interval ≤ elapsedSince env.nowCheck pre.lastLinkCheck) :
    (env.linkStatus ≠ pre.lastLinkStatus →
      countLinkChanged (maintain pre env interval).log = 1 ∧
      (maintain pre env interval).state.lastLinkStatus = env.linkStatus) ∧
    (env.linkStatus = pre.lastLinkStatus →
      countLinkChanged (maintain pre env interval).log = 0 ∧
      (maintain pre env interval).state.lastLinkStatus
        = pre.lastLinkStatus) := by
  refine ⟨fun hne => ?_, fun heq => ?_⟩
  · unfold maintain
    repeat' split
    all_goals simp_all [countLinkChanged_append, countLinkChanged_dhcpLogOf,
      countLinkChanged_singleton, countLinkChanged_nil]
  · unfold maintain
    repeat' split
    all_goals simp_all [countLinkChanged_append, countLinkChanged_dhcpLogOf,
      countLinkChanged_singleton, countLinkChanged_nil]

/-- Witness for C6: from stored `Unknown`, a fired check observing `LinkON`
logs exactly one transition and stores `LinkON`. -/
theorem change_triggered_logging_witness :
    countLinkChanged
      (maintain initState ⟨0, EthernetLinkStatus.LinkON, 10, 10⟩ 10).log = 1 ∧
    (maintain initState
      ⟨0, EthernetLinkStatus.LinkON, 10, 10⟩ 10).state.lastLinkStatus =
      EthernetLinkStatus.LinkON :=
  (change_triggered_logging initState ⟨0, EthernetLinkStatus.LinkON, 10, 10⟩
    10 (by decide)).1 (by decide)

/-- C7: `isLinkUp` returns `true` iff the driver's live link-carrier state is
`LinkON` (so `LinkOFF` and `Unknown` both yield `false`); it returns the
helper state unchanged and its result does not depend on the helper state at
all, hence is independent of the `maintain` polling cadence. -/
theorem isLinkUp_live_only (pre pre' : HelperState)
    (live : EthernetLinkStatus) :
    ((isLinkUp pre live).1 = true ↔ live = EthernetLinkStatus.LinkON) ∧
    (isLinkUp pre live).2 = pre ∧
    (isLinkUp pre live).1 = (isLinkUp pre' live).1 ∧
    (isLinkUp pre EthernetLinkStatus.LinkOFF).1 = false ∧
    (isLinkUp pre EthernetLinkStatus.Unknown).1 = false := by
  refine ⟨?_, rfl, rfl, rfl, rfl⟩
  cases live <;> simp [isLinkUp]

/-- C8: in dynamic mode, the lease-maintenance branch of `maintain` affects
only the log: for every driver result code (including renew/rebind failures)
the resulting helper state and the number of link queries are identical to
those under any other result code, `Ethernet.maintain()` is called exactly
once, and the addressing mode stays dynamic (`maintain` itself returns
`void`, so no failure reaches the caller). -/
theorem lease_maintenance_frame (pre : HelperState) (env : MaintainEnv)
    (interval r : Nat) (h : pre.usingDHCP = true) :
    (maintain pre env interval).maintainCalls = 1 ∧
    (maintain pre env interval).state.usingDHCP = true ∧
    (maintain pre env interval).state =
      (maintain pre ⟨r, env.linkStatus, env.nowCheck, env.nowStamp⟩
        interval).state ∧
    (maintain pre env interval).linkQueries =
      (maintain pre ⟨r, env.linkStatus, env.nowCheck, env.nowStamp⟩
        interval).linkQueries := by
  refine ⟨?_, ?_, ?_, ?_⟩
  · rw [maintain_maintainCalls_eq]
    simp [h]
  · rw [maintain_state_usingDHCP]
    exact h
  · unfold maintain
    repeat' split
    all_goals simp_all
  · unfold maintain
    repeat' split
    all_goals simp_all

/-- Witness for C8: in dynamic mode, a renew failure (result `1`) and a
rebind failure (result `3`) leave identical helper states. -/
theorem lease_maintenance_frame_witness :
    (maintain ⟨true, EthernetLinkStatus.Unknown, 0⟩
      ⟨1, EthernetLinkStatus.LinkON, 5, 5⟩ 10).state =
      (maintain ⟨true, EthernetLinkStatus.Unknown, 0⟩
        ⟨3, EthernetLinkStatus.LinkON, 5, 5⟩ 10).state :=
  (lease_maintenance_frame ⟨true, EthernetLinkStatus.Unknown, 0⟩
    ⟨1, EthernetLinkStatus.LinkON, 5, 5⟩ 10 3 rfl).2.2.1

/-- C10: the static initializers give `usingDHCP = false`,
`lastLinkStatus = Unknown`, `lastLinkCheck = 0`; hence any number of
`maintain` calls before `begin` never invoke `Ethernet.maintain()`, and the
first link check of a pre-`begin` call fires exactly when the `millis()`
reading reaches the interval. -/
theorem initial_state_properties (env : MaintainEnv) (interval : Nat)
    (envs : List MaintainEnv) (hnow : env.nowCheck < U32) :
    initState.usingDHCP = false ∧
    initState.lastLinkStatus = EthernetLinkStatus.Unknown ∧
    initState.lastLinkCheck = 0 ∧
    (maintain initState env interval).maintainCalls = 0 ∧
    (maintainRun initState envs interval).2 = 0 ∧
    ((maintain initState env interval).linkQueries = 1 ↔
      interval ≤ env.nowCheck) := by
  have he : elapsedSince env.nowCheck 0 = env.nowCheck := by
    unfold elapsedSince
    rw [Nat.zero_mod, Nat.sub_zero, Nat.add_mod_right,
      Nat.mod_eq_of_lt hnow]
  refine ⟨rfl, rfl, rfl, ?_, ?_, ?_⟩
  · rw [maintain_maintainCalls_eq]
    rfl
  · rw [maintainRun_calls_eq]
    rfl
  · rw [maintain_linkQueries_eq,
      show initState.lastLinkCheck = 0 from rfl, he]
    split <;> simp_all

/-- Witness for C10: before any `begin`, a `maintain` call at
`millis() = 10000` with the default interval performs no lease maintenance
and fires its first link check. -/
theorem initial_state_properties_witness :
    (maintain initState ⟨0, EthernetLinkStatus.LinkON, 10000, 10000⟩
      10000).maintainCalls = 0 ∧
    (maintain initState ⟨0, EthernetLinkStatus.LinkON, 10000, 10000⟩
      10000).linkQueries = 1 :=
  ⟨(initial_state_properties ⟨0, EthernetLinkStatus.LinkON, 10000, 10000⟩
      10000 [] (by decide)).2.2.2.1,
   ((initial_state_properties ⟨0, EthernetLinkStatus.LinkON, 10000, 10000⟩
      10000 [] (by decide)).2.2.2.2.2).mpr (by decide)⟩

end EthernetHelper
